import Mathlib

/-!
Shallow embedding of the trace-context propagation layer of the
opentelemetry-tutorial repository (rust lessons 03 and 04), together with the
instrumented HTTP handlers and client operations that use it.

The repository's own code (under `src/rust/...`) consists of the handlers
(`format_handler`, `publish_handler`) and the client operations
(`format_string`, `publish_string`); those are embedded directly from the
source.  The propagators themselves (`TraceContextPropagator`,
`BaggagePropagator`, `TextMapCompositePropagator`) and span creation
(`start_with_context`) live in the OpenTelemetry SDK, not in this repository;
they are modelled from the specification (sections 3, 4.1-4.3, 6) and each
such definition is marked `Modelled from the spec:` in its doc comment.
-/

/-- Span Context: trace id (128-bit), span id (64-bit), trace flags (8-bit),
and whether the context was reconstructed from inbound headers. -/
structure SpanContext where
  traceId : Nat
  spanId : Nat
  traceFlags : Nat
  isRemote : Bool
deriving DecidableEq, Repr

/-- A header carrier: a mapping from header name to value, modelled as an
association list (header keys used by the propagators are the fixed
lower-case names `traceparent` and `baggage`). -/
abbrev Carrier := List (String × String)

/-- Read a header value: the first entry with the given key. -/
def getHeader (c : Carrier) (k : String) : Option String :=
  (List.find? (fun p => p.1 = k) c).map (fun p => p.2)

/-- Write a header value, overwriting any previous entry for the key. -/
def setHeader (c : Carrier) (k v : String) : Carrier :=
  (k, v) :: List.filter (fun p => ¬ p.1 = k) c

/-- Look up a key in an association list of strings (query parameters,
baggage entries). -/
def lookupParam (l : List (String × String)) (k : String) : Option String :=
  (List.find? (fun p => p.1 = k) l).map (fun p => p.2)

/-- The lower-case hex digit for a value `< 16`. -/
def hexDigitChar (n : Nat) : Char :=
  if n < 10 then Char.ofNat (48 + n) else Char.ofNat (87 + n)

/-- Big-endian, zero-padded hex rendering of `n` to exactly `w` digits
(the `{n:0wx}` format of the wire format in spec section 6). -/
def hexChars : Nat → Nat → List Char
  | 0, _ => []
  | w + 1, n => hexChars w (n / 16) ++ [hexDigitChar (n % 16)]

/-- Numeric value of a hex digit character, `none` on a non-hex character. -/
def hexCharVal (c : Char) : Option Nat :=
  if 48 ≤ c.toNat ∧ c.toNat ≤ 57 then some (c.toNat - 48)
  else if 97 ≤ c.toNat ∧ c.toNat ≤ 102 then some (c.toNat - 87)
  else if 65 ≤ c.toNat ∧ c.toNat ≤ 70 then some (c.toNat - 55)
  else none

/-- One step of hex parsing: accumulate a digit, failing on non-hex input. -/
def hexStep (acc : Option Nat) (c : Char) : Option Nat :=
  match acc, hexCharVal c with
  | some a, some v => some (a * 16 + v)
  | _, _ => none

/-- Parse a list of hex digit characters as a big-endian number;
`none` if any character is not a hex digit. -/
def parseHexChars (cs : List Char) : Option Nat :=
  cs.foldl hexStep (some 0)

/-- Split a character list on a separator character (the fixed `-` delimiter
of `traceparent`, the `,` and `=` of `baggage`). -/
def splitOnChar (sep : Char) : List Char → List (List Char)
  | [] => [[]]
  | c :: rest =>
    if c = sep then [] :: splitOnChar sep rest
    else
      match splitOnChar sep rest with
      | [] => [[c]]
      | h :: t => (c :: h) :: t

/-- Modelled from the spec: the wire encoding of spec section 6,
`"{version:02x}-{trace_id:032x}-{span_id:016x}-{flags:02x}"`, for a given
version byte (source: the `TraceContextPropagator` of the OpenTelemetry SDK,
which is not part of this repository). -/
def traceparentString (version : Nat) (c : SpanContext) : String :=
  String.mk (hexChars 2 version ++ '-' :: hexChars 32 c.traceId ++
    '-' :: hexChars 16 c.spanId ++ '-' :: hexChars 2 c.traceFlags)

/-- Modelled from the spec: `extract` of the Span-Identity Propagator
(spec section 4.1; the SDK `TraceContextPropagator` is not part of this
repository).  Parses the `traceparent` value: four `-`-separated fields of
2, 32, 16 and 2 hex characters; the supported version set is `{00}`; a trace
id or span id of all zero bits is treated as extraction failure.  Returns
`none` (the empty/invalid context) on any malformed input; the function is
total, so extraction never raises. -/
def parseTraceparent (s : String) : Option SpanContext :=
  match splitOnChar '-' s.toList with
  | [v, t, si, f] =>
    if v.length = 2 ∧ t.length = 32 ∧ si.length = 16 ∧ f.length = 2 then
      match parseHexChars v, parseHexChars t, parseHexChars si, parseHexChars f with
      | some vn, some tn, some sn, some fn =>
        if vn = 0 ∧ tn ≠ 0 ∧ sn ≠ 0 then
          some { traceId := tn, spanId := sn, traceFlags := fn, isRemote := true }
        else none
      | _, _, _, _ => none
    else none
  | _ => none

/-- Modelled from the spec: `inject` of the Span-Identity Propagator
(spec section 4.1).  Writes the `traceparent` header with the version-`00`
encoding; a no-op when the context is absent or invalid (zero trace id or
span id) — it never writes an empty/garbage value. -/
def injectTraceContext (c : Option SpanContext) (carrier : Carrier) : Carrier :=
  match c with
  | none => carrier
  | some ctx =>
    if ctx.traceId ≠ 0 ∧ ctx.spanId ≠ 0 then
      setHeader carrier "traceparent" (traceparentString 0 ctx)
    else carrier

/-- Modelled from the spec: extraction side of the Span-Identity Propagator
applied to a carrier; a missing `traceparent` header yields the
empty/invalid context. -/
def extractTraceContext (carrier : Carrier) : Option SpanContext :=
  match getHeader carrier "traceparent" with
  | none => none
  | some v => parseTraceparent v

/-- Baggage: an ordered mapping of string key to string value
(spec section 3). -/
abbrev Baggage := List (String × String)

/-- Percent-encode one character of a baggage key or value, escaping the
reserved characters `,`, `=`, `%` and the space. -/
def percentEncodeChar (c : Char) : List Char :=
  if c = ',' ∨ c = '=' ∨ c = '%' ∨ c = ' ' then
    ['%', hexDigitChar (c.toNat / 16 % 16), hexDigitChar (c.toNat % 16)]
  else [c]

/-- Percent-encode a whole baggage key or value. -/
def percentEncodeChars (cs : List Char) : List Char :=
  (cs.map percentEncodeChar).flatten

/-- Percent-decode a baggage key or value; `none` when a `%` escape is
truncated or holds non-hex digits. -/
def percentDecodeChars : List Char → Option (List Char)
  | [] => some []
  | '%' :: a :: b :: rest =>
    match hexCharVal a, hexCharVal b, percentDecodeChars rest with
    | some hi, some lo, some r => some (Char.ofNat (hi * 16 + lo) :: r)
    | _, _, _ => none
  | '%' :: _ => none
  | c :: rest => (percentDecodeChars rest).map (fun r => c :: r)

/-- Modelled from the spec: the `key1=value1,key2=value2` encoding of a
baggage mapping (spec section 4.2; the SDK `BaggagePropagator` is not part
of this repository).  The 8KB soft size cap of the spec is not modelled:
no claim concerns it. -/
def encodeBaggage (b : Baggage) : String :=
  String.intercalate "," (b.map (fun p =>
    String.mk (percentEncodeChars p.1.toList) ++ "=" ++
      String.mk (percentEncodeChars p.2.toList)))

/-- Modelled from the spec: `extract` of the Baggage Propagator
(spec section 4.2).  Splits on `,`, then each entry on `=`, percent-decoding
key and value; a malformed entry is skipped without failing the rest. -/
def parseBaggage (s : String) : Baggage :=
  (splitOnChar ',' s.toList).filterMap (fun e =>
    match splitOnChar '=' e with
    | [k, v] =>
      match percentDecodeChars k, percentDecodeChars v with
      | some kd, some vd => some (String.mk kd, String.mk vd)
      | _, _ => none
    | _ => none)

/-- Modelled from the spec: `inject` of the Baggage Propagator
(spec section 4.2): writes the `baggage` header only if the mapping is
non-empty. -/
def injectBaggage (b : Baggage) (carrier : Carrier) : Carrier :=
  match b with
  | [] => carrier
  | _ => setHeader carrier "baggage" (encodeBaggage b)

/-- Modelled from the spec: the baggage contribution extracted from a
carrier; a missing `baggage` header yields the empty mapping
(spec section 9, open question: both cases yield an empty mapping). -/
def extractBaggage (carrier : Carrier) : Baggage :=
  match getHeader carrier "baggage" with
  | none => []
  | some v => parseBaggage v

/-- The context manipulated by the composite propagator: the current span
context (if any) together with the baggage. -/
structure Ctx where
  spanContext : Option SpanContext
  baggage : Baggage

/-- Modelled from the spec: `inject` of the Composite Propagator
(spec section 4.3), fanning out to the registered propagators in
registration order; per `lesson04/solution/src/lib.rs` the registration
order is the baggage propagator first, then the trace-context propagator. -/
def compositeInject (cx : Ctx) (carrier : Carrier) : Carrier :=
  injectTraceContext cx.spanContext (injectBaggage cx.baggage carrier)

/-- Modelled from the spec: `extract` of the Composite Propagator
(spec section 4.3); each propagator's contribution is read off its own
header key and the results are merged into one effective context. -/
def compositeExtract (carrier : Carrier) : Ctx :=
  { spanContext := extractTraceContext carrier
    baggage := extractBaggage carrier }

/-- Modelled from the spec: `start_span(name, parent_context)` of the span
lifecycle contract (spec sections 3 and 4.4; span creation lives in the
OpenTelemetry SDK, not in this repository).  A child inherits the parent's
trace id and flags and gets the freshly generated span id; with no valid
parent a root span gets both freshly generated ids.  The id generator is
modelled as the explicit arguments `freshTraceId` and `freshSpanId`. -/
def start_with_context (parent : Option SpanContext)
    (freshTraceId freshSpanId : Nat) : SpanContext :=
  match parent with
  | some p =>
    { traceId := p.traceId, spanId := freshSpanId
      traceFlags := p.traceFlags, isRemote := false }
  | none =>
    { traceId := freshTraceId, spanId := freshSpanId
      traceFlags := 1, isRemote := false }

/-- The observable data of one span produced by a handler: its name, its own
context, the parent context it was started under, the events added to it,
and whether it was ended. -/
structure SpanData where
  name : String
  context : SpanContext
  parent : Option SpanContext
  events : List (String × String)
  ended : Bool
deriving Repr

namespace lesson04

/-- Embedded from `src/rust/lesson04/solution/src/bin/formatter.rs`,
`format_handler`: extracts the context from the request headers via the
composite propagator, reads the baggage member `greeting` (default
`"Hello"`), starts a span named `format` as a child of the extracted
context, formats the response from the `hello_to` query parameter, adds the
format event and ends the span.  The SDK's random id generator is modelled
by the explicit `freshTraceId`/`freshSpanId` arguments.  Returns the
response body together with the span produced. -/
def format_handler (freshTraceId freshSpanId : Nat)
    (params : List (String × String)) (headers : Carrier) :
    String × SpanData :=
  let cx := compositeExtract headers
  let baggage := cx.baggage
  let greeting :=
    match lookupParam baggage "greeting" with
    | some g => g
    | none => "Hello"
  let spanCtx := start_with_context cx.spanContext freshTraceId freshSpanId
  let resp :=
    match lookupParam params "hello_to" with
    | some hello_to => greeting ++ ", " ++ hello_to ++ "!"
    | none => greeting ++ " there!"
  (resp,
    { name := "format", context := spanCtx, parent := cx.spanContext
      events := [("format-event-response", "string-formated: " ++ resp)]
      ended := true })

/-- Embedded from `src/rust/lesson04/solution/src/bin/formatter.rs`: the
greeting word the handler derives from the baggage of the inbound headers
(`"Hello"` when the baggage has no `greeting` member). -/
def greetingWord (headers : Carrier) : String :=
  match lookupParam (extractBaggage headers) "greeting" with
  | some g => g
  | none => "Hello"

/-- The response body the formatter builds from a greeting word and the
query parameters: `"{greeting}, {hello_to}!"` when `hello_to` is present,
`"{greeting} there!"` otherwise. -/
def responseWith (greeting : String) (params : List (String × String)) :
    String :=
  match lookupParam params "hello_to" with
  | some hello_to => greeting ++ ", " ++ hello_to ++ "!"
  | none => greeting ++ " there!"

end lesson04

namespace lesson03

/-- Embedded from `src/rust/lesson03/solution/src/bin/publisher.rs`,
`publish_handler`: extracts the context from the request headers, starts a
span named `publish` as a child of it, prints the `hello_str` query
parameter if present and ends the span.  Returns the string printed (if
any) together with the span produced. -/
def publish_handler (freshTraceId freshSpanId : Nat)
    (params : List (String × String)) (headers : Carrier) :
    Option String × SpanData :=
  let cx := compositeExtract headers
  let spanCtx := start_with_context cx.spanContext freshTraceId freshSpanId
  (lookupParam params "hello_str",
    { name := "publish", context := spanCtx, parent := cx.spanContext
      events := [], ended := true })

end lesson03

/-- One observable action the tracing layer performs on the span of an
instrumented client operation. -/
inductive SpanOp (ε : Type) where
  | recordError (err : ε)
  | addEvent (name : String) (attr : String)
  | endSpan
deriving DecidableEq, Repr

/-- The number of `endSpan` actions in a span-operation trace. -/
def endCount {ε : Type} (ops : List (SpanOp ε)) : Nat :=
  (ops.filter (fun o => match o with | SpanOp.endSpan => true | _ => false)).length

namespace lesson03

/-- Embedded from `src/rust/lesson03/exercise/src/bin/client.rs`,
`format_string`: starts the `formatString` span, sends the request
(`send` is the outcome of `client.get(..).send().await`), and on the `Ok`
branch reads the body (`text` is the outcome of `resp.text().await`, left
by `?` on failure).  Returns the operation's result together with the trace
of span operations performed, in order. -/
def format_string {ε : Type} (send : Except ε Unit) (text : Except ε String) :
    Except ε String × List (SpanOp ε) :=
  match send with
  | Except.error err =>
    (Except.error err, [SpanOp.recordError err, SpanOp.endSpan])
  | Except.ok _ =>
    match text with
    | Except.error e => (Except.error e, [])
    | Except.ok hello_str =>
      (Except.ok hello_str,
        [SpanOp.addEvent "format-event-response"
          ("string-format: " ++ hello_str), SpanOp.endSpan])

/-- Embedded from `src/rust/lesson03/exercise/src/bin/client.rs`,
`publish_string`: starts the `printHello` span and sends the request;
no body is read on success. -/
def publish_string {ε : Type} (send : Except ε Unit) :
    Except ε Unit × List (SpanOp ε) :=
  match send with
  | Except.error err =>
    (Except.error err, [SpanOp.recordError err, SpanOp.endSpan])
  | Except.ok _ => (Except.ok (), [SpanOp.endSpan])

end lesson03

namespace lesson04

/-- Embedded from `src/rust/lesson04/exercise/src/bin/client.rs`,
`format_string`: starts the `formatString` span, builds the request
(`build` is the outcome of `client.get(..).query(..).build()`, left by `?`
on failure), injects the context into the request headers, executes the
request (`execute`), and on the `Ok` branch reads the body (`text`, left by
`?` on failure). -/
def format_string {ε : Type} (build : Except ε Unit) (execute : Except ε Unit)
    (text : Except ε String) : Except ε String × List (SpanOp ε) :=
  match build with
  | Except.error e => (Except.error e, [])
  | Except.ok _ =>
    match execute with
    | Except.error err =>
      (Except.error err, [SpanOp.recordError err, SpanOp.endSpan])
    | Except.ok _ =>
      match text with
      | Except.error e => (Except.error e, [])
      | Except.ok hello_str =>
        (Except.ok hello_str,
          [SpanOp.addEvent "format-event-response"
            ("string-format: " ++ hello_str), SpanOp.endSpan])

/-- Embedded from `src/rust/lesson04/exercise/src/bin/client.rs`,
`publish_string`: starts the `printHello` span, builds the request (left by
`?` on failure), injects the context and executes the request; no body is
read on success. -/
def publish_string {ε : Type} (build : Except ε Unit)
    (execute : Except ε Unit) : Except ε Unit × List (SpanOp ε) :=
  match build with
  | Except.error e => (Except.error e, [])
  | Except.ok _ =>
    match execute with
    | Except.error err =>
      (Except.error err, [SpanOp.recordError err, SpanOp.endSpan])
    | Except.ok _ => (Except.ok (), [SpanOp.endSpan])

end lesson04

/-! ### Helper lemmas -/

lemma hexChars_length (w : Nat) : ∀ n : Nat, (hexChars w n).length = w := by
  induction w with
  | zero => intro n; rfl
  | succ w ih => intro n; simp [hexChars, ih]

lemma hexDigit_spec : ∀ i : Fin 16,
    hexCharVal (hexDigitChar i.val) = some i.val ∧
      hexDigitChar i.val ≠ '-' ∧ hexDigitChar i.val ≠ ',' ∧
      hexDigitChar i.val ≠ '=' := by decide

lemma hexCharVal_hexDigitChar {m : Nat} (h : m < 16) :
    hexCharVal (hexDigitChar m) = some m :=
  (hexDigit_spec ⟨m, h⟩).1

lemma dash_not_mem_hexChars (w : Nat) : ∀ n : Nat, '-' ∉ hexChars w n := by
  induction w with
  | zero => intro n; simp [hexChars]
  | succ w ih =>
    intro n hmem
    rcases List.mem_append.mp hmem with h1 | h2
    · exact ih _ h1
    · have hd : '-' = hexDigitChar (n % 16) := by simpa using h2
      exact (hexDigit_spec ⟨n % 16, Nat.mod_lt n (by norm_num)⟩).2.1 hd.symm

lemma hexChars_all_hex (w : Nat) :
    ∀ n : Nat, ∀ ch ∈ hexChars w n, (hexCharVal ch).isSome := by
  induction w with
  | zero => intro n ch h; simp [hexChars] at h
  | succ w ih =>
    intro n ch h
    rcases List.mem_append.mp h with h1 | h2
    · exact ih _ ch h1
    · have hd : ch = hexDigitChar (n % 16) := by simpa using h2
      rw [hd, hexCharVal_hexDigitChar (Nat.mod_lt n (by norm_num))]
      rfl

lemma foldl_hexStep (w : Nat) : ∀ n a : Nat,
    List.foldl hexStep (some a) (hexChars w n) =
      some (a * 16 ^ w + n % 16 ^ w) := by
  induction w with
  | zero => intro n a; simp [hexChars, Nat.mod_one]
  | succ w ih =>
    intro n a
    rw [hexChars, List.foldl_append, ih]
    have hd : hexCharVal (hexDigitChar (n % 16)) = some (n % 16) :=
      hexCharVal_hexDigitChar (Nat.mod_lt n (by norm_num))
    simp only [List.foldl_cons, List.foldl_nil, hexStep, hd]
    congr 1
    have hmod : n % 16 ^ (w + 1) = n % 16 + 16 * (n / 16 % 16 ^ w) := by
      rw [pow_succ']
      exact Nat.mod_mul
    rw [hmod, pow_succ]
    ring

lemma parseHexChars_hexChars {w n : Nat} (h : n < 16 ^ w) :
    parseHexChars (hexChars w n) = some n := by
  rw [parseHexChars, foldl_hexStep]
  simp [Nat.mod_eq_of_lt h]

lemma splitOnChar_not_mem {sep : Char} {l : List Char} (h : sep ∉ l) :
    splitOnChar sep l = [l] := by
  induction l with
  | nil => rfl
  | cons c rest ih =>
    have hc : ¬ c = sep := fun e => h (by simp [e])
    have hr : sep ∉ rest := fun m => h (List.mem_cons_of_mem _ m)
    rw [splitOnChar, if_neg hc, ih hr]

lemma splitOnChar_append {sep : Char} {A : List Char} (rest : List Char)
    (h : sep ∉ A) :
    splitOnChar sep (A ++ sep :: rest) = A :: splitOnChar sep rest := by
  induction A with
  | nil =>
    rw [List.nil_append, splitOnChar, if_pos rfl]
  | cons c t ih =>
    have hc : ¬ c = sep := fun e => h (by simp [e])
    have ht : sep ∉ t := fun m => h (List.mem_cons_of_mem _ m)
    rw [List.cons_append, splitOnChar, if_neg hc, ih ht]

lemma getHeader_setHeader_same (c : Carrier) (k v : String) :
    getHeader (setHeader c k v) k = some v := by
  simp [getHeader, setHeader, List.find?]

lemma find?_filter_of_imp {α : Type} (p q : α → Bool) (l : List α)
    (h : ∀ x, p x = true → q x = true) :
    List.find? p (l.filter q) = List.find? p l := by
  induction l with
  | nil => rfl
  | cons x t ih =>
    by_cases hq : q x = true
    · rw [List.filter_cons_of_pos hq]
      by_cases hp : p x = true
      · rw [List.find?_cons_of_pos _ hp, List.find?_cons_of_pos _ hp]
      · rw [List.find?_cons_of_neg _ (by simpa using hp),
          List.find?_cons_of_neg _ (by simpa using hp), ih]
    · have hp : ¬ p x = true := fun hpx => hq (h x hpx)
      rw [List.filter_cons_of_neg (by simpa using hq), ih,
        List.find?_cons_of_neg _ (by simpa using hp)]

lemma getHeader_setHeader_ne (c : Carrier) {k k' : String} (v : String)
    (h : k ≠ k') : getHeader (setHeader c k' v) k = getHeader c k := by
  rw [getHeader, setHeader, List.find?_cons_of_neg _ (by simpa using fun e => h e.symm),
    find?_filter_of_imp _ _ _ (fun x hx => by
      simp only [decide_eq_true_eq] at hx
      simpa [hx] using h), getHeader]

/-- The central parsing/encoding lemma: parsing an encoded `traceparent`
value succeeds exactly when the version is the supported `00` and neither id
is all zero bits, and then recovers the ids and flags exactly. -/
lemma parseTraceparent_traceparentString (v : Nat) (c : SpanContext)
    (hv : v < 256) (ht : c.traceId < 2 ^ 128) (hs : c.spanId < 2 ^ 64)
    (hf : c.traceFlags < 256) :
    parseTraceparent (traceparentString v c) =
      if v = 0 ∧ c.traceId ≠ 0 ∧ c.spanId ≠ 0 then
        some { traceId := c.traceId, spanId := c.spanId
               traceFlags := c.traceFlags, isRemote := true }
      else none := by
  have hv16 : v < 16 ^ 2 := by norm_num [hv]
  have ht16 : c.traceId < 16 ^ 32 := by
    calc c.traceId < 2 ^ 128 := ht
    _ = 16 ^ 32 := by norm_num
  have hs16 : c.spanId < 16 ^ 16 := by
    calc c.spanId < 2 ^ 64 := hs
    _ = 16 ^ 16 := by norm_num
  have hf16 : c.traceFlags < 16 ^ 2 := by norm_num [hf]
  rw [parseTraceparent, traceparentString]
  have htl : (String.mk (hexChars 2 v ++ '-' :: hexChars 32 c.traceId ++
      '-' :: hexChars 16 c.spanId ++ '-' :: hexChars 2 c.traceFlags)).toList =
      hexChars 2 v ++ '-' :: (hexChars 32 c.traceId ++
        '-' :: (hexChars 16 c.spanId ++ '-' :: hexChars 2 c.traceFlags)) := by
    simp [String.toList]
  rw [htl, splitOnChar_append _ (dash_not_mem_hexChars 2 v),
    splitOnChar_append _ (dash_not_mem_hexChars 32 c.traceId),
    splitOnChar_append _ (dash_not_mem_hexChars 16 c.spanId),
    splitOnChar_not_mem (dash_not_mem_hexChars 2 c.traceFlags)]
  simp only [hexChars_length, parseHexChars_hexChars hv16,
    parseHexChars_hexChars ht16, parseHexChars_hexChars hs16,
    parseHexChars_hexChars hf16, and_self, if_true, ite_true]

lemma getHeader_compositeInject_traceparent (c : SpanContext) (b : Baggage)
    (carrier : Carrier) (ht0 : c.traceId ≠ 0) (hs0 : c.spanId ≠ 0) :
    getHeader (compositeInject ⟨some c, b⟩ carrier) "traceparent" =
      some (traceparentString 0 c) := by
  simp only [compositeInject, injectTraceContext, ne_eq, ht0, not_false_iff,
    hs0, and_self, if_true, ite_true]
  exact getHeader_setHeader_same _ _ _

/-! ### Claim theorems -/

/-- C1: for every valid Span Context (non-zero trace id and span id),
extracting from a header carrier into which it was injected via the
registered composite propagator (baggage propagator, then trace-context
propagator, as registered in `lesson04/solution/src/lib.rs`) yields a
context whose trace id, span id and trace flags are identical. -/
theorem C1_inject_extract_roundtrip (c : SpanContext) (b : Baggage)
    (carrier : Carrier) (ht : c.traceId < 2 ^ 128) (hs : c.spanId < 2 ^ 64)
    (hf : c.traceFlags < 256) (ht0 : c.traceId ≠ 0) (hs0 : c.spanId ≠ 0) :
    ∃ c', (compositeExtract (compositeInject ⟨some c, b⟩ carrier)).spanContext
        = some c' ∧
      c'.traceId = c.traceId ∧ c'.spanId = c.spanId ∧
      c'.traceFlags = c.traceFlags := by
  refine ⟨{ traceId := c.traceId, spanId := c.spanId
            traceFlags := c.traceFlags, isRemote := true }, ?_, rfl, rfl, rfl⟩
  simp only [compositeExtract, extractTraceContext,
    getHeader_compositeInject_traceparent c b carrier ht0 hs0]
  rw [parseTraceparent_traceparentString 0 c (by norm_num) ht hs hf]
  simp [ht0, hs0]

/-- C1 witness: round trip at the Span Context of the spec's worked
example. -/
theorem C1_inject_extract_roundtrip_witness :
    ∃ c', (compositeExtract (compositeInject
        ⟨some { traceId := 0x4bf92f3577b34da6a3ce929d0e0e4736
                spanId := 0x00f067aa0ba902b7, traceFlags := 1
                isRemote := false }, []⟩ [])).spanContext = some c' ∧
      c'.traceId = 0x4bf92f3577b34da6a3ce929d0e0e4736 ∧
      c'.spanId = 0x00f067aa0ba902b7 ∧ c'.traceFlags = 1 :=
  C1_inject_extract_roundtrip _ [] [] (by decide) (by decide) (by decide)
    (by decide) (by decide)

/-- C6: for every valid span context, the injected `traceparent` header
value is `"{version:02x}-{trace_id:032x}-{span_id:016x}-{flags:02x}"`: a
2-hex-char version field of value zero, a 32-hex-char trace id field, a
16-hex-char span id field and a 2-hex-char flags field, joined by `-`, the
fields decoding back to the context's values. -/
theorem C6_traceparent_wire_format (c : SpanContext) (b : Baggage)
    (carrier : Carrier) (ht : c.traceId < 2 ^ 128) (hs : c.spanId < 2 ^ 64)
    (hf : c.traceFlags < 256) (ht0 : c.traceId ≠ 0) (hs0 : c.spanId ≠ 0) :
    ∃ ver tid sid flg : List Char,
      getHeader (compositeInject ⟨some c, b⟩ carrier) "traceparent" =
        some (String.mk (ver ++ '-' :: tid ++ '-' :: sid ++ '-' :: flg)) ∧
      ver.length = 2 ∧ tid.length = 32 ∧ sid.length = 16 ∧ flg.length = 2 ∧
      (∀ ch ∈ ver ++ tid ++ sid ++ flg, (hexCharVal ch).isSome = true) ∧
      parseHexChars ver = some 0 ∧ parseHexChars tid = some c.traceId ∧
      parseHexChars sid = some c.spanId ∧
      parseHexChars flg = some c.traceFlags := by
  have ht16 : c.traceId < 16 ^ 32 := by
    calc c.traceId < 2 ^ 128 := ht
    _ = 16 ^ 32 := by norm_num
  have hs16 : c.spanId < 16 ^ 16 := by
    calc c.spanId < 2 ^ 64 := hs
    _ = 16 ^ 16 := by norm_num
  refine ⟨hexChars 2 0, hexChars 32 c.traceId, hexChars 16 c.spanId,
    hexChars 2 c.traceFlags,
    getHeader_compositeInject_traceparent c b carrier ht0 hs0,
    hexChars_length 2 0, hexChars_length 32 c.traceId,
    hexChars_length 16 c.spanId, hexChars_length 2 c.traceFlags, ?_,
    parseHexChars_hexChars (by norm_num), parseHexChars_hexChars ht16,
    parseHexChars_hexChars hs16, parseHexChars_hexChars (by norm_num [hf])⟩
  intro ch hch
  rcases List.mem_append.mp hch with h1 | h4
  · rcases List.mem_append.mp h1 with h2 | h3
    · rcases List.mem_append.mp h2 with h5 | h6
      · exact hexChars_all_hex 2 0 ch h5
      · exact hexChars_all_hex 32 c.traceId ch h6
    · exact hexChars_all_hex 16 c.spanId ch h3
  · exact hexChars_all_hex 2 c.traceFlags ch h4

/-- C6 witness: the wire format at the spec's worked example, whose encoded
value is `00-4bf92f3577b34da6a3ce929d0e0e4736-00f067aa0ba902b7-01`. -/
theorem C6_traceparent_wire_format_witness :
    ∃ ver tid sid flg : List Char,
      getHeader (compositeInject
        ⟨some { traceId := 0x4bf92f3577b34da6a3ce929d0e0e4736
                spanId := 0x00f067aa0ba902b7, traceFlags := 1
                isRemote := false }, []⟩ []) "traceparent" =
        some (String.mk (ver ++ '-' :: tid ++ '-' :: sid ++ '-' :: flg)) ∧
      ver.length = 2 ∧ tid.length = 32 ∧ sid.length = 16 ∧ flg.length = 2 ∧
      (∀ ch ∈ ver ++ tid ++ sid ++ flg, (hexCharVal ch).isSome = true) ∧
      parseHexChars ver = some 0 ∧
      parseHexChars tid = some 0x4bf92f3577b34da6a3ce929d0e0e4736 ∧
      parseHexChars sid = some 0x00f067aa0ba902b7 ∧
      parseHexChars flg = some 1 :=
  C6_traceparent_wire_format _ [] [] (by decide) (by decide) (by decide)
    (by decide) (by decide)

/-- C3: extraction is total and degrades to the empty/invalid context: a
missing `traceparent` header, a malformed value (the literal `garbage`),
and a well-formed value with an unsupported version all extract to `none`;
`extractTraceContext`, `parseTraceparent` and `compositeExtract` are total
functions, so extraction never raises on the request path. -/
theorem C3_extract_tolerates_invalid_input :
    (∀ carrier : Carrier, getHeader carrier "traceparent" = none →
      (compositeExtract carrier).spanContext = none) ∧
    (∀ carrier : Carrier, getHeader carrier "traceparent" = some "garbage" →
      (compositeExtract carrier).spanContext = none) ∧
    (∀ (carrier : Carrier) (v : Nat) (c : SpanContext), v < 256 → v ≠ 0 →
      c.traceId < 2 ^ 128 → c.spanId < 2 ^ 64 → c.traceFlags < 256 →
      getHeader carrier "traceparent" = some (traceparentString v c) →
      (compositeExtract carrier).spanContext = none) := by
  refine ⟨fun carrier h => ?_, fun carrier h => ?_,
    fun carrier v c hv hv0 ht hs hf h => ?_⟩
  · simp only [compositeExtract, extractTraceContext, h]
  · simp only [compositeExtract, extractTraceContext, h]
    decide
  · simp only [compositeExtract, extractTraceContext, h]
    rw [parseTraceparent_traceparentString v c hv ht hs hf]
    simp [hv0]

/-- C3 witness: the three degradation cases at concrete carriers — no
`traceparent` header, `traceparent: garbage`, and a well-formed value with
the unsupported version `01`. -/
theorem C3_extract_tolerates_invalid_input_witness :
    (compositeExtract []).spanContext = none ∧
    (compositeExtract [("traceparent", "garbage")]).spanContext = none ∧
    (compositeExtract [("traceparent", traceparentString 1
        { traceId := 7, spanId := 5, traceFlags := 1
          isRemote := false })]).spanContext = none :=
  ⟨C3_extract_tolerates_invalid_input.1 [] rfl,
   C3_extract_tolerates_invalid_input.2.1 [("traceparent", "garbage")] rfl,
   C3_extract_tolerates_invalid_input.2.2 _ 1 _ (by decide) (by decide)
     (by decide) (by decide) (by decide) rfl⟩

/-- C7: a `traceparent` value that is otherwise well-formed but whose trace
id field or span id field is all zero bits is treated as extraction
failure: the extracted context is the empty/invalid context. -/
theorem C7_zero_ids_extraction_failure (carrier : Carrier) (c : SpanContext)
    (ht : c.traceId < 2 ^ 128) (hs : c.spanId < 2 ^ 64)
    (hf : c.traceFlags < 256) (h0 : c.traceId = 0 ∨ c.spanId = 0)
    (hget : getHeader carrier "traceparent" = some (traceparentString 0 c)) :
    (compositeExtract carrier).spanContext = none := by
  simp only [compositeExtract, extractTraceContext, hget]
  rw [parseTraceparent_traceparentString 0 c (by norm_num) ht hs hf]
  rcases h0 with h | h <;> simp [h]

/-- C7 witness: extraction failure at an otherwise well-formed value with
an all-zero trace id, and at one with an all-zero span id. -/
theorem C7_zero_ids_extraction_failure_witness :
    (compositeExtract [("traceparent", traceparentString 0
        { traceId := 0, spanId := 5, traceFlags := 1
          isRemote := false })]).spanContext = none ∧
    (compositeExtract [("traceparent", traceparentString 0
        { traceId := 7, spanId := 0, traceFlags := 1
          isRemote := false })]).spanContext = none :=
  ⟨C7_zero_ids_extraction_failure _ _ (by decide) (by decide) (by decide)
     (Or.inl rfl) rfl,
   C7_zero_ids_extraction_failure _ _ (by decide) (by decide) (by decide)
     (Or.inr rfl) rfl⟩

/-- C2: the lesson04 formatter falls back to the greeting word `Hello` when
the request carries no `baggage` header, and uses `Howdy` when the request
carries `baggage: greeting=Howdy`. -/
theorem C2_baggage_greeting (ftid fsid : Nat)
    (params : List (String × String)) (headers : Carrier) :
    (getHeader headers "baggage" = none →
      (lesson04.format_handler ftid fsid params headers).1 =
        lesson04.responseWith "Hello" params) ∧
    (getHeader headers "baggage" = some "greeting=Howdy" →
      (lesson04.format_handler ftid fsid params headers).1 =
        lesson04.responseWith "Howdy" params) := by
  refine ⟨fun h => ?_, fun h => ?_⟩
  · simp only [lesson04.format_handler, lesson04.responseWith,
      compositeExtract, extractBaggage, h]
    rfl
  · simp only [lesson04.format_handler, lesson04.responseWith,
      compositeExtract, extractBaggage, h]
    have hpb : lookupParam (parseBaggage "greeting=Howdy") "greeting" =
        some "Howdy" := by decide
    simp only [hpb]

/-- C2 witness: the fallback and override at concrete requests, both with
and without the `hello_to` query parameter. -/
theorem C2_baggage_greeting_witness :
    (lesson04.format_handler 0 1 [("hello_to", "Bob")] []).1 =
      lesson04.responseWith "Hello" [("hello_to", "Bob")] ∧
    (lesson04.format_handler 0 1 []
        [("baggage", "greeting=Howdy")]).1 = lesson04.responseWith "Howdy" [] :=
  ⟨(C2_baggage_greeting 0 1 [("hello_to", "Bob")] []).1 rfl,
   (C2_baggage_greeting 0 1 [] [("baggage", "greeting=Howdy")]).2 rfl⟩

/-- C9: the formatter's response body is independent of span identity: two
requests with the same query parameters and the same `baggage` header but
arbitrary (different or absent) `traceparent` headers, and arbitrary
generated span ids, produce the same response string. -/
theorem C9_response_independent_of_span_identity
    (ftid1 fsid1 ftid2 fsid2 : Nat) (params : List (String × String))
    (h1 h2 : Carrier) (hb : getHeader h1 "baggage" = getHeader h2 "baggage") :
    (lesson04.format_handler ftid1 fsid1 params h1).1 =
      (lesson04.format_handler ftid2 fsid2 params h2).1 := by
  have hbag : extractBaggage h1 = extractBaggage h2 := by
    rw [extractBaggage, extractBaggage, hb]
  simp only [lesson04.format_handler, compositeExtract, hbag]

/-- C9 witness: equal responses for a request carrying the worked-example
`traceparent` header and a request carrying none. -/
theorem C9_response_independent_of_span_identity_witness :
    (lesson04.format_handler 0 1 [("hello_to", "Bob")]
        [("traceparent",
          "00-4bf92f3577b34da6a3ce929d0e0e4736-00f067aa0ba902b7-01")]).1 =
      (lesson04.format_handler 2 3 [("hello_to", "Bob")] []).1 :=
  C9_response_independent_of_span_identity 0 1 2 3 [("hello_to", "Bob")]
    _ [] rfl

/-- C10: a request to the formatter whose query string has no `hello_to`
parameter still succeeds, with response `"{greeting} there!"` for the
baggage-derived greeting word. -/
theorem C10_missing_hello_to_param (ftid fsid : Nat)
    (params : List (String × String)) (headers : Carrier)
    (h : lookupParam params "hello_to" = none) :
    (lesson04.format_handler ftid fsid params headers).1 =
      lesson04.greetingWord headers ++ " there!" := by
  simp only [lesson04.format_handler, lesson04.greetingWord,
    compositeExtract, h]

/-- C10 witness: the parameterless request at concrete headers, without and
with a baggage greeting. -/
theorem C10_missing_hello_to_param_witness :
    (lesson04.format_handler 0 1 [] []).1 =
      lesson04.greetingWord [] ++ " there!" ∧
    (lesson04.format_handler 0 1 [("other", "x")]
        [("baggage", "greeting=Howdy")]).1 =
      lesson04.greetingWord [("baggage", "greeting=Howdy")] ++ " there!" :=
  ⟨C10_missing_hello_to_param 0 1 [] [] rfl,
   C10_missing_hello_to_param 0 1 [("other", "x")]
     [("baggage", "greeting=Howdy")] rfl⟩

/-- C8: when a server handler extracts a valid context from the inbound
headers and starts a new span as a child of it, the span carries the same
trace id as the extracted context and a fresh span id distinct from the
extracted parent span id (freshness of the generated id being the id
generator's contract, spec section 3). -/
theorem C8_child_span_same_trace_fresh_span (ftid fsid : Nat)
    (params : List (String × String)) (headers : Carrier) (pc : SpanContext)
    (hex : (compositeExtract headers).spanContext = some pc)
    (hfresh : fsid ≠ pc.spanId) :
    ((lesson04.format_handler ftid fsid params headers).2.context.traceId =
        pc.traceId ∧
      (lesson04.format_handler ftid fsid params headers).2.context.spanId ≠
        pc.spanId) ∧
    ((lesson03.publish_handler ftid fsid params headers).2.context.traceId =
        pc.traceId ∧
      (lesson03.publish_handler ftid fsid params headers).2.context.spanId ≠
        pc.spanId) := by
  simp only [compositeExtract] at hex
  simp only [lesson04.format_handler, lesson03.publish_handler,
    compositeExtract, hex, start_with_context]
  exact ⟨⟨trivial, hfresh⟩, ⟨trivial, hfresh⟩⟩

/-- C8 witness: the end-to-end scenario of spec section 8 — the worked
`traceparent` header is extracted and the child spans started by the
handlers keep trace id `4bf92f3577b34da6a3ce929d0e0e4736` with a span id
distinct from `00f067aa0ba902b7`. -/
theorem C8_child_span_same_trace_fresh_span_witness :
    ((lesson04.format_handler 0 1 [("hello_to", "Bob")]
        [("traceparent",
          "00-4bf92f3577b34da6a3ce929d0e0e4736-00f067aa0ba902b7-01")]
        ).2.context.traceId = 0x4bf92f3577b34da6a3ce929d0e0e4736 ∧
      (lesson04.format_handler 0 1 [("hello_to", "Bob")]
        [("traceparent",
          "00-4bf92f3577b34da6a3ce929d0e0e4736-00f067aa0ba902b7-01")]
        ).2.context.spanId ≠ 0x00f067aa0ba902b7) ∧
    ((lesson03.publish_handler 0 1 [("hello_str", "Hello, Bob!")]
        [("traceparent",
          "00-4bf92f3577b34da6a3ce929d0e0e4736-00f067aa0ba902b7-01")]
        ).2.context.traceId = 0x4bf92f3577b34da6a3ce929d0e0e4736 ∧
      (lesson03.publish_handler 0 1 [("hello_str", "Hello, Bob!")]
        [("traceparent",
          "00-4bf92f3577b34da6a3ce929d0e0e4736-00f067aa0ba902b7-01")]
        ).2.context.spanId ≠ 0x00f067aa0ba902b7) :=
  C8_child_span_same_trace_fresh_span 0 1 _ _
    { traceId := 0x4bf92f3577b34da6a3ce929d0e0e4736
      spanId := 0x00f067aa0ba902b7, traceFlags := 1, isRemote := true }
    (by decide) (by decide)

/-- C4 counterexample: the claim that the span is terminated exactly once
on every exit path fails on the exit path of lesson04 `format_string` where
the HTTP call succeeds but reading the response body fails: the early
return through `?` at `resp.text().await?` performs no explicit `end`, so
the span-operation trace holds zero `end` operations. -/
theorem C4_counterexample :
    ¬ endCount (@lesson04.format_string String (Except.ok ()) (Except.ok ())
        (Except.error "body read failed")).2 = 1 := by decide

/-- C4 (amended): in each instrumented client operation the span is ended
exactly once on the exit path where the HTTP call fails with an error and
on the exit path where the operation fully succeeds; on the early-return
exit paths reached through `?` (request build failure in lesson04, response
body read failure in `format_string`) the operation performs no explicit
`end`. -/
theorem C4_span_end_on_exit_paths {ε : Type} (err : ε) (body : String)
    (anyExec : Except ε Unit) (anyText : Except ε String) :
    endCount (lesson03.format_string (Except.error err) anyText).2 = 1 ∧
    endCount (lesson03.format_string (Except.ok () : Except ε Unit)
      (Except.ok body)).2 = 1 ∧
    endCount (lesson03.format_string (Except.ok ())
      (Except.error err)).2 = 0 ∧
    endCount (lesson03.publish_string (Except.error err)).2 = 1 ∧
    endCount (lesson03.publish_string (Except.ok () : Except ε Unit)).2
      = 1 ∧
    endCount (lesson04.format_string (Except.ok ()) (Except.error err)
      anyText).2 = 1 ∧
    endCount (lesson04.format_string (Except.ok () : Except ε Unit)
      (Except.ok ()) (Except.ok body)).2 = 1 ∧
    endCount (lesson04.format_string (Except.error err) anyExec
      anyText).2 = 0 ∧
    endCount (lesson04.format_string (Except.ok ()) (Except.ok ())
      (Except.error err)).2 = 0 ∧
    endCount (lesson04.publish_string (Except.error err) anyExec).2 = 0 ∧
    endCount (lesson04.publish_string (Except.ok ())
      (Except.error err)).2 = 1 ∧
    endCount (lesson04.publish_string (Except.ok () : Except ε Unit)
      (Except.ok ())).2 = 1 :=
  ⟨rfl, rfl, rfl, rfl, rfl, rfl, rfl, rfl, rfl, rfl, rfl, rfl⟩

/-- C4 witness: the amended exit-path accounting at concrete outcomes. -/
theorem C4_span_end_on_exit_paths_witness :
    endCount (@lesson03.format_string String (Except.error "network down")
        (Except.ok "Hello, Bob!")).2 = 1 ∧
    endCount (@lesson03.format_string String (Except.ok ())
        (Except.ok "Hello, Bob!")).2 = 1 ∧
    endCount (@lesson03.format_string String (Except.ok ())
        (Except.error "network down")).2 = 0 ∧
    endCount (@lesson03.publish_string String
        (Except.error "network down")).2 = 1 ∧
    endCount (@lesson03.publish_string String (Except.ok ())).2 = 1 ∧
    endCount (@lesson04.format_string String (Except.ok ())
        (Except.error "network down") (Except.ok "Hello, Bob!")).2 = 1 ∧
    endCount (@lesson04.format_string String (Except.ok ()) (Except.ok ())
        (Except.ok "Hello, Bob!")).2 = 1 ∧
    endCount (@lesson04.format_string String (Except.error "network down")
        (Except.ok ()) (Except.ok "Hello, Bob!")).2 = 0 ∧
    endCount (@lesson04.format_string String (Except.ok ()) (Except.ok ())
        (Except.error "network down")).2 = 0 ∧
    endCount (@lesson04.publish_string String (Except.error "network down")
        (Except.ok ())).2 = 0 ∧
    endCount (@lesson04.publish_string String (Except.ok ())
        (Except.error "network down")).2 = 1 ∧
    endCount (@lesson04.publish_string String (Except.ok ())
        (Except.ok ())).2 = 1 :=
  C4_span_end_on_exit_paths "network down" "Hello, Bob!"
    (Except.ok ()) (Except.ok "Hello, Bob!")

/-- C5: when the underlying HTTP request fails, `format_string` and
`publish_string` (lesson03 and lesson04 clients) return the transport error
to the caller unchanged, and the only tracing-layer actions taken are
recording the error on the current span and then ending it. -/
theorem C5_transport_error_passthrough {ε : Type} (err : ε)
    (anyText : Except ε String) :
    lesson03.format_string (Except.error err) anyText =
      (Except.error err, [SpanOp.recordError err, SpanOp.endSpan]) ∧
    lesson03.publish_string (Except.error err) =
      (Except.error err, [SpanOp.recordError err, SpanOp.endSpan]) ∧
    lesson04.format_string (Except.ok ()) (Except.error err) anyText =
      (Except.error err, [SpanOp.recordError err, SpanOp.endSpan]) ∧
    lesson04.publish_string (Except.ok ()) (Except.error err) =
      (Except.error err, [SpanOp.recordError err, SpanOp.endSpan]) :=
  ⟨rfl, rfl, rfl, rfl⟩

/-- C5 witness: the pass-through at a concrete transport error. -/
theorem C5_transport_error_passthrough_witness :
    @lesson03.format_string String (Except.error "connection refused")
        (Except.ok "Hello, Bob!") =
      (Except.error "connection refused",
        [SpanOp.recordError "connection refused", SpanOp.endSpan]) ∧
    @lesson03.publish_string String (Except.error "connection refused") =
      (Except.error "connection refused",
        [SpanOp.recordError "connection refused", SpanOp.endSpan]) ∧
    @lesson04.format_string String (Except.ok ())
        (Except.error "connection refused") (Except.ok "Hello, Bob!") =
      (Except.error "connection refused",
        [SpanOp.recordError "connection refused", SpanOp.endSpan]) ∧
    @lesson04.publish_string String (Except.ok ())
        (Except.error "connection refused") =
      (Except.error "connection refused",
        [SpanOp.recordError "connection refused", SpanOp.endSpan]) :=
  C5_transport_error_passthrough "connection refused" (Except.ok "Hello, Bob!")

